import Mathlib

/-!
# Verification of the dibi SQL statement construction and sanitization engine

A shallow embedding in Lean 4 of the parts of the `dibi` ORM that the
claims of the specification are about, translated from the Python sources:

* `dibi/driver/common.py` : the `CleanSQL` sanitized-string type, the
  `DbapiDriver` statement builder (`identifier`, `literal`, `expression`,
  `construct_statement`, `transaction`, the `operators` table);
* `dibi/common.py`        : `Selectable`, `Filter`, `Column`, `Table`;
* `dibi/collection.py`    : `Collection.add` / ordered dict storage;
* `dibi/__init__.py`      : `DB.add_table`;
* `dibi/datatype/__init__.py` : the `DataType` serialize/deserialize pairs.

Python strings are modelled as Lean `String`/`List Char`; machine-level
details (interning, identity) are irrelevant to the claims.  Fallible
operations return `Except PyExn` or `Option`.
-/

set_option autoImplicit false

/-- Python exception classes that the embedded code can raise. -/
inductive PyExn where
  | typeError
  | valueError
  | noColumnsError
  | tableAlreadyExists
  | noSuchTableError
deriving DecidableEq

/-- A Python value as it can appear among the arguments of the
`CleanSQL` string-building operations: a `CleanSQL` instance, a plain
`str`, `None`, or an `int`. -/
inductive PyVal where
  | clean (s : String)
  | plain (s : String)
  | pyNone
  | pyInt (n : Int)
deriving DecidableEq

/-- `isinstance(value, CleanSQL)`. -/
def PyVal.isClean : PyVal → Bool
  | .clean _ => true
  | _ => false

/-- Python `str(value)` (only ever applied to values that passed the
cleanliness check, but total here). -/
def PyVal.toStr : PyVal → String
  | .clean s => s
  | .plain s => s
  | .pyNone => "None"
  | .pyInt n => toString n

/-- Python truthiness of such a value: `None` and `0` and the empty
string are falsy, everything else is truthy. -/
def PyVal.truthy : PyVal → Bool
  | .clean s => !(s = "")
  | .plain s => !(s = "")
  | .pyNone => false
  | .pyInt n => !(n = 0)

/-! ## Python `str.format`

The sources only use positional `{}`/`{0}`-style and keyword `{name}`
replacement fields with no format specs or brace escapes, so the
embedding implements exactly that fragment: a single pass over the
template; `{}` consumes the next automatically numbered positional
argument, `{digits}` indexes the positionals, any other field name is
looked up among the keywords.  A field that resolves to nothing yields
the empty string (no template in the sources under-supplies arguments).
-/

/-- Numeric value of a digit field such as `0` in `\x7b0\x7d`. -/
def fieldNat (cs : List Char) : Nat :=
  cs.foldl (fun a c => 10 * a + (c.toNat - 48)) 0

/-- Resolve one replacement field: empty field = next automatic
positional, digit field = manual positional, anything else = keyword. -/
def resolveField (field : List Char) (auto : Nat) (args : List String)
    (kwargs : List (String × String)) : String × Nat :=
  if field = [] then (args.getD auto "", auto + 1)
  else if field.all Char.isDigit then (args.getD (fieldNat field) "", auto)
  else ((kwargs.lookup (String.mk field)).getD "", auto)

/-- One pass of the formatter.  The second argument is `some acc` while
scanning the inside of a replacement field (accumulated in reverse). -/
def strFormatGo : List Char → Option (List Char) → Nat → List String →
    List (String × String) → List Char
  | [], _, _, _, _ => []
  | c :: cs, Option.none, auto, args, kwargs =>
    if c = '{' then strFormatGo cs (some []) auto args kwargs
    else c :: strFormatGo cs Option.none auto args kwargs
  | c :: cs, some acc, auto, args, kwargs =>
    if c = '}' then
      let r := resolveField acc.reverse auto args kwargs
      r.1.data ++ strFormatGo cs Option.none r.2 args kwargs
    else strFormatGo cs (some (c :: acc)) auto args kwargs

/-- Embedding of Python `str.format` restricted to the fragment the
sources use. -/
def strFormat (template : String) (args : List String)
    (kwargs : List (String × String)) : String :=
  String.mk (strFormatGo template.data Option.none 0 args kwargs)

/-! ## `CleanSQL` (dibi/driver/common.py, lines 11-57)

`CleanSQL.sanitize` is the identity, so a `CleanSQL` instance is just a
string whose construction went through the approved operations; the
operations below carry the cleanliness checks of the source. -/

namespace CleanSQL

/-- `CleanSQL.join(self, values)`: raise `TypeError` if any value is
not a `CleanSQL` instance, otherwise `str.join(self, values)`. -/
def join (self : String) (values : List PyVal) : Except PyExn String :=
  if values.any (fun v => !v.isClean) then .error .typeError
  else .ok (String.intercalate self (values.map PyVal.toStr))

/-- `CleanSQL.join_format(self, joiner, *iterators)`: raise `TypeError`
if the joiner or any flattened value is not clean, otherwise format
`self` with the joined values.  The iterators are modelled already
flattened into one list. -/
def join_format (self : String) (joiner : PyVal) (values : List PyVal) :
    Except PyExn String :=
  if !joiner.isClean then .error .typeError
  else if values.any (fun v => !v.isClean) then .error .typeError
  else
    match join joiner.toStr values with
    | .ok j => .ok (strFormat self [j] [])
    | .error e => .error e

/-- `CleanSQL.join_words(self, *words)`: drop falsy words, then `join`. -/
def join_words (self : String) (words : List PyVal) : Except PyExn String :=
  join self (words.filter PyVal.truthy)

/-- `CleanSQL.format(self, *args, **kwargs)`: raise `TypeError` if any
positional or keyword argument is not clean, otherwise `str.format`. -/
def format (self : String) (args : List PyVal)
    (kwargs : List (String × PyVal)) : Except PyExn String :=
  if args.any (fun v => !v.isClean) then .error .typeError
  else if kwargs.any (fun kv => !kv.2.isClean) then .error .typeError
  else .ok (strFormat self (args.map PyVal.toStr)
      (kwargs.map (fun kv => (kv.1, kv.2.toStr))))

end CleanSQL

/-- `DbapiDriver.construct_statement(*words)`:
`C("\x7b\x7d;").join_format(C(" "), (word for word in words if word))` —
the falsy words are dropped by the generator before `join_format` sees
them. -/
def construct_statement (words : List PyVal) : Except PyExn String :=
  CleanSQL.join_format "{};" (.clean " ") (words.filter PyVal.truthy)

/-! ## Python `str.replace`

Non-overlapping left-to-right replacement of a (nonempty, in every use
in the sources) pattern. -/

/-- Embedding of Python `str.replace` on character lists. -/
def strReplace (s find repl : List Char) : List Char :=
  match s with
  | [] => []
  | c :: rest =>
    if h : find ≠ [] ∧ find.isPrefixOf (c :: rest) then
      repl ++ strReplace ((c :: rest).drop find.length) find repl
    else
      c :: strReplace rest find repl
termination_by s.length
decreasing_by
  · have hf : 0 < find.length := List.length_pos.mpr h.1
    simp only [List.length_drop, List.length_cons]
    omega
  · simp only [List.length_cons]
    omega

/-- `CleanSQL.replace` / `str.replace` at `String` level. -/
def strReplaceS (s find repl : String) : String :=
  String.mk (strReplace s.data find.data repl.data)

/-! ## `DbapiDriver` syntax cleansers (dibi/driver/common.py, lines 325-358)

The driver attribute `identifier_quote` is a parameter `q` below (SQLite `"`;
the default `identifier_quote_escape` set in `DbapiDriver.__init__` is
`identifier_quote * 2`).  The `C("...").format(...)` calls in the source
always receive `CleanSQL` arguments, so their cleanliness checks pass
and they are embedded directly as `strFormat`. -/

/-- `DbapiDriver.identifier(value)`: replace each quote by the doubled
quote and wrap in quotes via the template `\x7b0\x7d\x7b1\x7d\x7b0\x7d`. -/
def identifier (q : String) (value : String) : String :=
  strFormat "{0}{1}{0}" [q, strReplaceS value q (q ++ q)] []

/-- A Python literal value of one of the types accepted by
`DbapiDriver.literal` (`None`, `str`, `int`); other types raise
`TypeError` there and never appear in the claims. -/
inductive Lit where
  | null
  | strL (s : String)
  | intL (n : Int)
deriving DecidableEq

/-- `DbapiDriver.literal(value)`: `NULL` for `None`, quoted-and-escaped
for strings, decimal text for ints. -/
def literal : Lit → String
  | Lit.null => "NULL"
  | Lit.strL s => strFormat "\x27{}\x27" [strReplaceS s "\x27" "\x27\x27"] []
  | Lit.intL n => toString n

/-- One argument of a `Filter` expression tree: a `Column` (identified
by the name of its table and its own name; `expression` checks
`isinstance(value, Column)` first, so a column renders as a leaf), a
literal value, or a nested `Filter`. -/
inductive Arg where
  | col (table : String) (name : String)
  | lit (v : Lit)
  | filt (op : String) (args : List Arg)

/-- Whether the argument is a nested `Filter` (and not a `Column`). -/
def Arg.isFilt : Arg → Bool
  | .filt _ _ => true
  | _ => false

/-- The `operator(string)` helper of dibi/driver/common.py: apply the
format template to the rendered arguments. -/
def opTemplate (template : String) (args : List String) : String :=
  strFormat template args []

/-- `DbapiDriver.operators.EQUAL`: if either rendered operand is the
string `NULL`, use the `IS` template, else `=`. -/
def opEQUAL (a b : String) : String :=
  if a = "NULL" ∨ b = "NULL" then opTemplate "({} IS {})" [a, b]
  else opTemplate "({}={})" [a, b]

/-- `DbapiDriver.operators.NOTEQUAL`: if either rendered operand is the
string `NULL`, use the `IS NOT` template, else `!=`. -/
def opNOTEQUAL (a b : String) : String :=
  if a = "NULL" ∨ b = "NULL" then opTemplate "({} IS NOT {})" [a, b]
  else opTemplate "({}!={})" [a, b]

/-- The `DbapiDriver.operators` table.  `EQUAL`/`NOTEQUAL` are the two
hand-written operators above; the rest are `operator(template)`
instances.  A lookup of an unknown operator name (an `AttributeError`
in Python) or an arity mismatch (a formatting error) is `none`. -/
def applyOp (op : String) (args : List String) : Option String :=
  match args with
  | [a] =>
    if op = "NOT" then some (opTemplate "(NOT {})" [a])
    else if op = "NEGATIVE" then some (opTemplate "(-{})" [a])
    else if op = "SUM" then some (opTemplate "sum({})" [a])
    else if op = "AVERAGE" then some (opTemplate "avg({})" [a])
    else if op = "MAXIMUM" then some (opTemplate "max({})" [a])
    else if op = "MINIMUM" then some (opTemplate "min({})" [a])
    else if op = "COUNT" then some (opTemplate "count({})" [a])
    else Option.none
  | [a, b] =>
    if op = "AND" then some (opTemplate "({} AND {})" [a, b])
    else if op = "OR" then some (opTemplate "({} OR {})" [a, b])
    else if op = "EQUAL" then some (opEQUAL a b)
    else if op = "NOTEQUAL" then some (opNOTEQUAL a b)
    else if op = "GREATERTHAN" then some (opTemplate "({} > {})" [a, b])
    else if op = "GREATEREQUAL" then some (opTemplate "({} >= {})" [a, b])
    else if op = "LESSTHAN" then some (opTemplate "({} < {})" [a, b])
    else if op = "LESSEQUAL" then some (opTemplate "({} <= {})" [a, b])
    else if op = "ADD" then some (opTemplate "({} + {})" [a, b])
    else if op = "SUBTRACT" then some (opTemplate "({} - {})" [a, b])
    else if op = "MULTIPLY" then some (opTemplate "({} * {})" [a, b])
    else if op = "DIVIDE" then some (opTemplate "({} / {})" [a, b])
    else if op = "MODULO" then some (opTemplate "({} % {})" [a, b])
    else if op = "LEFTSHIFT" then some (opTemplate "({} << {})" [a, b])
    else if op = "RIGHTSHIFT" then some (opTemplate "({} >> {})" [a, b])
    else Option.none
  | _ => Option.none

mutual

/-- `DbapiDriver.expression(value)`: a `Column` renders as
`quoted_table.quoted_column`, a `Filter` applies its operator to the
recursively rendered arguments, anything else goes through `literal`. -/
def expression (q : String) : Arg → Option String
  | .col t n => some (strFormat "{}.{}" [identifier q t, identifier q n] [])
  | .lit v => some (literal v)
  | .filt op args =>
    match expressionList q args with
    | some rendered => applyOp op rendered
    | Option.none => Option.none

/-- Renders a list of arguments left to right. -/
def expressionList (q : String) : List Arg → Option (List String)
  | [] => some []
  | a :: rest =>
    match expression q a, expressionList q rest with
    | some s, some ss => some (s :: ss)
    | _, _ => Option.none

end

/-! ## `Filter.tables` (dibi/common.py, lines 101-152)

`Filter.__init__` stores the operator and arguments and computes
`tables = set(arg.table for arg in arguments if isinstance(arg, Column))`
— over the *direct* arguments only.  Every operator overload builds a
new `Filter` through this constructor. -/

/-- A constructed `Filter` node: operator tag, arguments, and the
`tables` attribute computed at construction time. -/
structure PyFilter where
  op : String
  args : List Arg
  tables : List String

/-- The table of each direct `Column` argument, deduplicated (the
Python `set(...)` of `Filter.__init__`). -/
def filterArgTables (args : List Arg) : List String :=
  (args.filterMap (fun a =>
    match a with
    | Arg.col t _ => some t
    | _ => Option.none)).dedup

/-- `Filter(db, operator, *arguments)`. -/
def mkFilter (op : String) (args : List Arg) : PyFilter :=
  ⟨op, args, filterArgTables args⟩

mutual

/-- The tables of all `Column`s appearing anywhere in an argument tree
(what claim C8 says `tables` equals). -/
def argTables : Arg → List String
  | .col t _ => [t]
  | .lit _ => []
  | .filt _ args => argListTables args

/-- `argTables` over a list of arguments. -/
def argListTables : List Arg → List String
  | [] => []
  | a :: rest => argTables a ++ argListTables rest

end

/-! ## Schema model: `Column` / `Table` (dibi/common.py, lines 155-227) -/

/-- The attributes of a `Column` (the owning table and `db` back-references
are kept implicitly by placement inside a `PyTable`; the datatype is
its registry name). -/
structure Col where
  name : String
  datatype : String
  primarykey : Bool
  autoincrement : Bool
  implicit : Bool
deriving DecidableEq

/-- A `Table`: name, ordered column collection (`OrderedCollection`
keyed by column name), and the `primarykey` attribute (the name of the
referenced `Column` object, `none` for Python `None`). -/
structure PyTable where
  name : String
  columns : List Col
  primarykey : Option String
deriving DecidableEq

/-- `Table.add_column`: `OrderedCollection.add(column, replace=False)`
returns the existing column when the name is already present (leaving
the collection unchanged) and appends otherwise; if the `primarykey`
argument is true, `self.primarykey` is set to the returned column. -/
def addColumn (t : PyTable) (c : Col) : PyTable × Col :=
  match t.columns.find? (fun c0 => c0.name == c.name) with
  | some c0 =>
    ({ t with primarykey := if c.primarykey then some c0.name else t.primarykey }, c0)
  | Option.none =>
    ({ t with columns := t.columns ++ [c],
              primarykey := if c.primarykey then some c.name else t.primarykey }, c)

/-- The CREATE TABLE request that `Table.save` hands to
`driver.create_table(self, self.columns, force_create)`. -/
structure CreateTableCall where
  table : String
  columns : List Col
  force : Bool
deriving DecidableEq

/-- The implicit autoincrement primary-key column that `Table.save`
passes to `add_column` (its `implicit` flag is set afterwards by
mutating the returned object). -/
def idColumnArg : Col :=
  ⟨"__id__", "Integer", true, true, false⟩

/-- `Table.save(force_create)`: raise `NoColumnsError` on an empty
column collection; if `self.__dict__["primarykey"]` is `None`, run
`self.primarykey = self.add_column("__id__", Integer, primarykey=True,
autoincrement=True)` and then `self.primarykey.implicit = True` (the
mutation hits the object stored in the collection, i.e. the column of
that name); finally call the driver method `create_table`. -/
def tableSave (t : PyTable) (force : Bool) : Except PyExn (PyTable × CreateTableCall) :=
  if t.columns.isEmpty then .error .noColumnsError
  else
    let t1 :=
      if t.primarykey.isNone then
        let r := addColumn t idColumnArg
        { r.1 with columns := r.1.columns.map (fun c =>
            if c.name == r.2.name then { c with implicit := true } else c) }
      else t
    .ok (t1, ⟨t1.name, t1.columns, force⟩)

/-- The columns `Selectable.select()` projects when called with no
explicit columns on a single table: every non-implicit column, in
insertion order. -/
def defaultSelectColumns (t : PyTable) : List Col :=
  t.columns.filter (fun c => !c.implicit)

/-! ## `Selectable.update` (dibi/common.py, lines 68-75) -/

/-- The driver call that `Selectable.update` issues when it proceeds. -/
inductive UpdateOutcome where
  | driverCall (table : String) (values : List (String × Lit))
deriving DecidableEq

/-- `Selectable.update(**values)`: raise `ValueError` unless
`len(self.tables) == 1`, else call `driver.update(list(self.tables)[0],
criteria, values)`.  The set `self.tables` is modelled as the list of
its elements. -/
def selectableUpdate (tables : List String) (values : List (String × Lit)) :
    Except PyExn UpdateOutcome :=
  if h : tables.length ≠ 1 then .error .valueError
  else .ok (.driverCall (tables.head (by
    intro hnil
    exact h (by simp [hnil]))) values)

/-! ## `Collection.add` and `DB.add_table`
(dibi/collection.py lines 189-211, dibi/__init__.py lines 292-302) -/

/-- Python `dict.__setitem__` on an insertion-ordered association list:
overwrite in place if the key exists, append otherwise. -/
def dictSet {α : Type} : List (String × α) → String → α → List (String × α)
  | [], key, v => [(key, v)]
  | (k, w) :: rest, key, v =>
    if k = key then (k, v) :: rest else (k, w) :: dictSet rest key v

/-- `Collection.add(item, replace=True)`: store (replacing any existing
item of the same key) and return the item when `replace` is true or the
key is absent; otherwise return the existing item unchanged. -/
def collectionAdd {α : Type} (items : List (String × α)) (key : String)
    (item : α) (replace : Bool) : List (String × α) × α :=
  match replace, items.lookup key with
  | true, _ => (dictSet items key item, item)
  | false, Option.none => (dictSet items key item, item)
  | false, some old => (items, old)

/-- `Table(db, name, primarykey=None)`: fresh table; a string
`primarykey` immediately adds an autoincrement primary-key column of
that name. -/
def mkTable (name : String) (primarykey : Option String) : PyTable :=
  match primarykey with
  | Option.none => ⟨name, [], Option.none⟩
  | some p => (addColumn ⟨name, [], Option.none⟩ ⟨p, "Integer", true, true, false⟩).1

/-- `DB.add_table(name, primarykey=None)`: construct a fresh `Table`
and `self.tables.add(...)` it with the default `replace=True`; the
driver is never contacted and no exception is raised. -/
def dbAddTable (tables : List (String × PyTable)) (name : String)
    (primarykey : Option String) :
    Except PyExn (List (String × PyTable) × PyTable) :=
  .ok (collectionAdd tables name (mkTable name primarykey) true)

/-! ## `DbapiDriver.transaction` (dibi/driver/common.py, lines 243-256)

The generator increments `self.transaction_depth`, sets a local
`error = None`, yields inside `catch_exception` (which translates and
re-raises, so a failing body still raises), and in the `finally` block
decrements the depth and — only when the depth is back to zero — commits
if `error is None` else rolls back.  The source has no `except` clause
assigning `error`, so it is `None` on every path. -/

/-- A commit or rollback issued on the underlying connection. -/
inductive TxAction where
  | commit
  | rollback
deriving DecidableEq

/-- The driver state the transaction scope touches: the depth counter
and the log of commit/rollback calls made so far. -/
structure TxState where
  transaction_depth : Nat
  log : List TxAction
deriving DecidableEq

/-- One run of the `transaction()` context manager around a body that
finishes in state `body st` with an optional uncaught exception; the
returned exception propagates to the caller. -/
def transactionRun (st : TxState) (body : TxState → TxState × Option PyExn) :
    TxState × Option PyExn :=
  let st1 : TxState := { st with transaction_depth := st.transaction_depth + 1 }
  let error : Option PyExn := Option.none
  let r := body st1
  let st3 : TxState := { r.1 with transaction_depth := r.1.transaction_depth - 1 }
  if st3.transaction_depth = 0 then
    match error with
    | Option.none => ({ st3 with log := st3.log ++ [TxAction.commit] }, r.2)
    | some _ => ({ st3 with log := st3.log ++ [TxAction.rollback] }, r.2)
  else (st3, r.2)

/-! ## Datatypes (dibi/datatype/__init__.py)

`DataType` (and `Float`, `Blob`, which inherit it unchanged) serialize
and deserialize with the identity.  `Text` casts with `str`, `Integer`
with `int` — identities on their own domains.  `Date`/`DateTime`
serialize with `isoformat()` and deserialize with
`datetime.strptime(value, "%Y-%m-%d")`/
`datetime.strptime(value, "%Y-%m-%dT%H:%M:%S.%f")`.

`isoformat` prints zero-padded fixed-width decimal fields; crucially,
`datetime.isoformat()` omits the `.%f` part entirely when
`microsecond == 0`.  `strptime` requires the whole string to match its
format (no unconverted data) and the field ranges are validated exactly
as by the `date`/`datetime` constructors. -/

/-- `w`-digit zero-padded decimal printing (the `%0wd` fields of
`isoformat`); the most significant digit first. -/
def printFixed : Nat → Nat → List Char
  | 0, _ => []
  | w + 1, n => Char.ofNat (48 + n / 10 ^ w) :: printFixed w (n % 10 ^ w)

/-- The numeric value of a decimal digit character, if it is one. -/
def charToDigit? (c : Char) : Option Nat :=
  if 48 ≤ c.toNat ∧ c.toNat ≤ 57 then some (c.toNat - 48) else Option.none

/-- Read exactly `w` decimal digits (the fixed-width `strptime` fields
as they occur in `isoformat` output), accumulating onto `acc`. -/
def readFixed : Nat → Nat → List Char → Option (Nat × List Char)
  | 0, acc, cs => some (acc, cs)
  | _ + 1, _, [] => Option.none
  | w + 1, acc, c :: cs =>
    match charToDigit? c with
    | some d => readFixed w (10 * acc + d) cs
    | Option.none => Option.none

/-- Read up to `w` more digits greedily; returns the value so far, the
count of digits consumed so far, and the rest. -/
def readFracAux : Nat → Nat → Nat → List Char → Nat × Nat × List Char
  | 0, acc, cnt, cs => (acc, cnt, cs)
  | _ + 1, acc, cnt, [] => (acc, cnt, [])
  | w + 1, acc, cnt, c :: cs =>
    match charToDigit? c with
    | some d => readFracAux w (10 * acc + d) (cnt + 1) cs
    | Option.none => (acc, cnt, c :: cs)

/-- The `%f` field of `strptime`: one to six digits, scaled up to
microseconds by right-padding with zeros. -/
def readFrac (cs : List Char) : Option (Nat × List Char) :=
  let r := readFracAux 6 0 0 cs
  if r.2.1 = 0 then Option.none else some (r.1 * 10 ^ (6 - r.2.1), r.2.2)

/-- Consume one expected literal character of the format. -/
def expectChar (c : Char) : List Char → Option (List Char)
  | x :: rest => if x = c then some rest else Option.none
  | [] => Option.none

/-- A `datetime.date` value. -/
structure PyDate where
  year : Nat
  month : Nat
  day : Nat
deriving DecidableEq

/-- A `datetime.datetime` value (naive, as the sources use them). -/
structure PyDateTime where
  year : Nat
  month : Nat
  day : Nat
  hour : Nat
  minute : Nat
  second : Nat
  microsecond : Nat
deriving DecidableEq

/-- Length of a month, as validated by the `date`/`datetime`
constructors. -/
def daysInMonth (year month : Nat) : Nat :=
  if month = 2 then
    if year % 4 = 0 ∧ (year % 100 ≠ 0 ∨ year % 400 = 0) then 29 else 28
  else if month = 4 ∨ month = 6 ∨ month = 9 ∨ month = 11 then 30
  else 31

/-- The invariant every constructible `datetime.date` satisfies. -/
def PyDate.valid (d : PyDate) : Prop :=
  1 ≤ d.year ∧ d.year ≤ 9999 ∧ 1 ≤ d.month ∧ d.month ≤ 12 ∧
    1 ≤ d.day ∧ d.day ≤ daysInMonth d.year d.month

instance (d : PyDate) : Decidable d.valid := by
  unfold PyDate.valid
  infer_instance

/-- The invariant every constructible `datetime.datetime` satisfies. -/
def PyDateTime.valid (t : PyDateTime) : Prop :=
  PyDate.valid ⟨t.year, t.month, t.day⟩ ∧ t.hour ≤ 23 ∧ t.minute ≤ 59 ∧
    t.second ≤ 59 ∧ t.microsecond ≤ 999999

instance (t : PyDateTime) : Decidable t.valid := by
  unfold PyDateTime.valid
  infer_instance

/-- The `date()`/`datetime.date()` constructor: validates the field
ranges. -/
def mkDate (y m d : Nat) : Option PyDate :=
  if 1 ≤ y ∧ y ≤ 9999 ∧ 1 ≤ m ∧ m ≤ 12 ∧ 1 ≤ d ∧ d ≤ daysInMonth y m then
    some ⟨y, m, d⟩
  else Option.none

/-- The `datetime()` constructor: validates the field ranges. -/
def mkDateTime (y mo d h mi s f : Nat) : Option PyDateTime :=
  if (1 ≤ y ∧ y ≤ 9999 ∧ 1 ≤ mo ∧ mo ≤ 12 ∧ 1 ≤ d ∧ d ≤ daysInMonth y mo)
      ∧ h ≤ 23 ∧ mi ≤ 59 ∧ s ≤ 59 ∧ f ≤ 999999 then
    some ⟨y, mo, d, h, mi, s, f⟩
  else Option.none

/-- `date.isoformat()`: `%04d-%02d-%02d`. -/
def serializeDate (d : PyDate) : String :=
  String.mk (printFixed 4 d.year ++ ('-' :: (printFixed 2 d.month ++
    ('-' :: printFixed 2 d.day))))

/-- `datetime.strptime(value, "%Y-%m-%d").date()`: four digits, dash,
up-to-two digits, dash, up-to-two digits, nothing left over, then the
`date` constructor.  (`isoformat` always emits the two-digit form, so
the fixed-width reader matches it exactly.) -/
def deserializeDate (s : String) : Option PyDate := do
  let (y, r1) ← readFixed 4 0 s.data
  let r2 ← expectChar '-' r1
  let (m, r3) ← readFixed 2 0 r2
  let r4 ← expectChar '-' r3
  let (d, r5) ← readFixed 2 0 r4
  if r5 = [] then mkDate y m d else Option.none

/-- `datetime.isoformat()`: `%04d-%02d-%02dT%02d:%02d:%02d` and, only
when `microsecond` is nonzero, `.%06d`. -/
def serializeDateTime (t : PyDateTime) : String :=
  String.mk (printFixed 4 t.year ++ ('-' :: (printFixed 2 t.month ++
    ('-' :: (printFixed 2 t.day ++ ('T' :: (printFixed 2 t.hour ++
    (':' :: (printFixed 2 t.minute ++ (':' :: (printFixed 2 t.second ++
    (if t.microsecond = 0 then [] else
      '.' :: printFixed 6 t.microsecond))))))))))))

/-- `datetime.strptime(value, "%Y-%m-%dT%H:%M:%S.%f")`: the literal
`.` and a 1-6 digit fraction are part of the format and required. -/
def deserializeDateTime (s : String) : Option PyDateTime := do
  let (y, r1) ← readFixed 4 0 s.data
  let r2 ← expectChar '-' r1
  let (mo, r3) ← readFixed 2 0 r2
  let r4 ← expectChar '-' r3
  let (d, r5) ← readFixed 2 0 r4
  let r6 ← expectChar 'T' r5
  let (h, r7) ← readFixed 2 0 r6
  let r8 ← expectChar ':' r7
  let (mi, r9) ← readFixed 2 0 r8
  let r10 ← expectChar ':' r9
  let (sec, r11) ← readFixed 2 0 r10
  let r12 ← expectChar '.' r11
  let (f, r13) ← readFrac r12
  if r13 = [] then mkDateTime y mo d h mi sec f else Option.none

namespace dt

/-- `DataType.serialize`: the identity on any value. -/
def DataType.serialize (v : PyVal) : PyVal := v

/-- `DataType.deserialize`: the identity on any value. -/
def DataType.deserialize (v : PyVal) : PyVal := v

/-- `Text.serialize = str`, the identity on its `str` domain. -/
def Text.serialize (s : String) : String := s

/-- `Text.deserialize = str`, the identity on its `str` domain. -/
def Text.deserialize (s : String) : String := s

/-- `Integer.serialize = int`, the identity on its `int` domain. -/
def Integer.serialize (n : Int) : Int := n

/-- `Integer.deserialize`, inherited from `DataType`: the identity. -/
def Integer.deserialize (n : Int) : Int := n

/-- `Float` inherits both functions from `DataType` unchanged. -/
def Float.serialize (v : PyVal) : PyVal := v

/-- `Float.deserialize`, inherited identity. -/
def Float.deserialize (v : PyVal) : PyVal := v

/-- `Blob` inherits both functions from `DataType` unchanged. -/
def Blob.serialize (v : PyVal) : PyVal := v

/-- `Blob.deserialize`, inherited identity. -/
def Blob.deserialize (v : PyVal) : PyVal := v

/-- `Date.serialize(value) = value.isoformat()`. -/
def Date.serialize (d : PyDate) : String := serializeDate d

/-- `Date.deserialize(value) = datetime.strptime(value, "%Y-%m-%d").date()`. -/
def Date.deserialize (s : String) : Option PyDate := deserializeDate s

/-- `DateTime.serialize(value) = value.isoformat()`. -/
def DateTime.serialize (t : PyDateTime) : String := serializeDateTime t

/-- `DateTime.deserialize(value) =
datetime.strptime(value, "%Y-%m-%dT%H:%M:%S.%f")`. -/
def DateTime.deserialize (s : String) : Option PyDateTime := deserializeDateTime s

end dt

/-! ## Helper lemmas: evaluating the concrete format templates -/

theorem strFormat_aba (a b : String) :
    strFormat "{0}{1}{0}" [a, b] [] = a ++ b ++ a := by
  apply String.ext
  simp only [strFormat]
  simp +decide [strFormatGo, resolveField, fieldNat]

theorem strFormat_dot (a b : String) :
    strFormat "{}.{}" [a, b] [] = a ++ "." ++ b := by
  apply String.ext
  simp only [strFormat]
  simp +decide [strFormatGo, resolveField]

theorem strFormat_semi (x : String) :
    strFormat "{};" [x] [] = x ++ ";" := by
  apply String.ext
  simp only [strFormat]
  simp +decide [strFormatGo, resolveField]

theorem strFormat_is (a b : String) :
    strFormat "({} IS {})" [a, b] [] = "(" ++ a ++ " IS " ++ b ++ ")" := by
  apply String.ext
  simp only [strFormat]
  simp +decide [strFormatGo, resolveField]

theorem strFormat_is_not (a b : String) :
    strFormat "({} IS NOT {})" [a, b] [] = "(" ++ a ++ " IS NOT " ++ b ++ ")" := by
  apply String.ext
  simp only [strFormat]
  simp +decide [strFormatGo, resolveField]

theorem strFormat_eq (a b : String) :
    strFormat "({}={})" [a, b] [] = "(" ++ a ++ "=" ++ b ++ ")" := by
  apply String.ext
  simp only [strFormat]
  simp +decide [strFormatGo, resolveField]

theorem strFormat_ne (a b : String) :
    strFormat "({}!={})" [a, b] [] = "(" ++ a ++ "!=" ++ b ++ ")" := by
  apply String.ext
  simp only [strFormat]
  simp +decide [strFormatGo, resolveField]

/-! ## Helper lemmas: boolean cleanliness conditions -/

theorem any_unclean_iff (values : List PyVal) :
    (values.any (fun v => !v.isClean) = true) ↔ ∃ v ∈ values, v.isClean = false := by
  simp [List.any_eq_true]

theorem any_unclean_false_iff (values : List PyVal) :
    (values.any (fun v => !v.isClean) = false) ↔ ∀ v ∈ values, v.isClean = true := by
  simp [List.any_eq_false]

theorem any_kw_unclean_iff (kwargs : List (String × PyVal)) :
    (kwargs.any (fun kv => !kv.2.isClean) = true) ↔
      ∃ kv ∈ kwargs, kv.2.isClean = false := by
  rw [List.any_eq_true]
  constructor
  · rintro ⟨kv, hkv, h⟩
    exact ⟨kv, hkv, by simpa using h⟩
  · rintro ⟨kv, hkv, h⟩
    exact ⟨kv, hkv, by simpa using h⟩

theorem join_error_bool (self : String) (values : List PyVal) :
    CleanSQL.join self values = .error .typeError ↔
      values.any (fun v => !v.isClean) = true := by
  unfold CleanSQL.join
  split
  next h => simp [h]
  next h => simp [h]

theorem join_format_error_bool (self : String) (joiner : PyVal)
    (values : List PyVal) :
    CleanSQL.join_format self joiner values = .error .typeError ↔
      (!joiner.isClean || values.any (fun v => !v.isClean)) = true := by
  by_cases hj : joiner.isClean = true
  · by_cases hc : (values.any (fun v => !v.isClean)) = true
    · simp [CleanSQL.join_format, CleanSQL.join, hj, hc]
    · simp only [Bool.not_eq_true] at hc
      simp [CleanSQL.join_format, CleanSQL.join, hj, hc]
  · simp only [Bool.not_eq_true] at hj
    simp [CleanSQL.join_format, hj]

theorem format_error_bool (self : String) (args : List PyVal)
    (kwargs : List (String × PyVal)) :
    CleanSQL.format self args kwargs = .error .typeError ↔
      (args.any (fun v => !v.isClean) ||
        kwargs.any (fun kv => !kv.2.isClean)) = true := by
  by_cases ha : (args.any (fun v => !v.isClean)) = true
  · simp [CleanSQL.format, ha]
  · simp only [Bool.not_eq_true] at ha
    by_cases hk : (kwargs.any (fun kv => !kv.2.isClean)) = true
    · simp [CleanSQL.format, ha, hk]
    · simp only [Bool.not_eq_true] at hk
      simp [CleanSQL.format, ha, hk]

/-- C1 (claim): for `join`, `join_format`, and `format` on a `CleanSQL`
value, any non-`CleanSQL` argument (or joiner) makes the call raise
`TypeError`; with all arguments sanitized, the call returns the
joined/formatted result without error. -/
theorem cleansql_ops_reject_unclean (self : String) (joiner : PyVal)
    (values args : List PyVal) (kwargs : List (String × PyVal)) :
    (CleanSQL.join self values = .error .typeError ↔
      ∃ v ∈ values, v.isClean = false) ∧
    ((∀ v ∈ values, v.isClean = true) →
      CleanSQL.join self values =
        .ok (String.intercalate self (values.map PyVal.toStr))) ∧
    (CleanSQL.join_format self joiner values = .error .typeError ↔
      (joiner.isClean = false ∨ ∃ v ∈ values, v.isClean = false)) ∧
    ((joiner.isClean = true ∧ ∀ v ∈ values, v.isClean = true) →
      CleanSQL.join_format self joiner values =
        .ok (strFormat self
          [String.intercalate joiner.toStr (values.map PyVal.toStr)] [])) ∧
    (CleanSQL.format self args kwargs = .error .typeError ↔
      ((∃ v ∈ args, v.isClean = false) ∨ ∃ kv ∈ kwargs, kv.2.isClean = false)) ∧
    (((∀ v ∈ args, v.isClean = true) ∧ (∀ kv ∈ kwargs, kv.2.isClean = true)) →
      CleanSQL.format self args kwargs =
        .ok (strFormat self (args.map PyVal.toStr)
          (kwargs.map (fun kv => (kv.1, kv.2.toStr))))) := by
  refine ⟨?_, ?_, ?_, ?_, ?_, ?_⟩
  · exact (join_error_bool self values).trans (any_unclean_iff values)
  · intro hall
    have hc : values.any (fun v => !v.isClean) = false :=
      (any_unclean_false_iff values).mpr hall
    simp [CleanSQL.join, hc]
  · refine (join_format_error_bool self joiner values).trans ?_
    rw [Bool.or_eq_true]
    constructor
    · rintro (h | h)
      · exact Or.inl (by simpa using h)
      · exact Or.inr ((any_unclean_iff values).mp h)
    · rintro (h | h)
      · exact Or.inl (by simp [h])
      · exact Or.inr ((any_unclean_iff values).mpr h)
  · rintro ⟨hj, hall⟩
    have hc : values.any (fun v => !v.isClean) = false :=
      (any_unclean_false_iff values).mpr hall
    simp [CleanSQL.join_format, CleanSQL.join, hj, hc]
  · refine (format_error_bool self args kwargs).trans ?_
    rw [Bool.or_eq_true]
    constructor
    · rintro (h | h)
      · exact Or.inl ((any_unclean_iff args).mp h)
      · exact Or.inr ((any_kw_unclean_iff kwargs).mp h)
    · rintro (h | h)
      · exact Or.inl ((any_unclean_iff args).mpr h)
      · exact Or.inr ((any_kw_unclean_iff kwargs).mpr h)
  · rintro ⟨hargs, hkw⟩
    have ha : args.any (fun v => !v.isClean) = false :=
      (any_unclean_false_iff args).mpr hargs
    have hk : kwargs.any (fun kv => !kv.2.isClean) = false := by
      simp only [List.any_eq_false]
      intro kv hkv
      simp [hkw kv hkv]
    simp [CleanSQL.format, ha, hk]

/-- Witness for C1: a fully clean call succeeds with the concatenation,
an unclean argument raises `TypeError`, for each operation. -/
theorem cleansql_ops_reject_unclean_witness :
    CleanSQL.join ", " [PyVal.clean "a", PyVal.clean "b"] = .ok "a, b" ∧
    CleanSQL.join ", " [PyVal.clean "a", PyVal.plain "x"] = .error .typeError ∧
    CleanSQL.join_format "({})" (PyVal.clean ", ")
      [PyVal.plain "x"] = .error .typeError ∧
    CleanSQL.format "{}" [PyVal.plain "x"] [] = .error .typeError ∧
    CleanSQL.format "{}" [PyVal.clean "x"] [] = .ok "x" := by
  refine ⟨?_, ?_, ?_, ?_, ?_⟩
  · exact ((cleansql_ops_reject_unclean ", " (PyVal.clean "")
      [PyVal.clean "a", PyVal.clean "b"] [] []).2.1 (by decide)).trans rfl
  · exact (cleansql_ops_reject_unclean ", " (PyVal.clean "")
      [PyVal.clean "a", PyVal.plain "x"] [] []).1.mpr (by decide)
  · exact (cleansql_ops_reject_unclean "({})" (PyVal.clean ", ")
      [PyVal.plain "x"] [] []).2.2.1.mpr (by decide)
  · exact (cleansql_ops_reject_unclean "{}" (PyVal.clean "")
      [] [PyVal.plain "x"] []).2.2.2.2.1.mpr (by decide)
  · exact ((cleansql_ops_reject_unclean "{}" (PyVal.clean "")
      [] [PyVal.clean "x"] []).2.2.2.2.2 (by decide)).trans rfl

/-- C10 (claim): `join_words` (and via it `construct_statement`) drops
every falsy argument — `None` placeholders and the empty plain string
included — before the cleanliness check, so those arguments never
trigger the `TypeError` rejection; the remaining truthy words are
joined with exactly one separator between consecutive words. -/
theorem join_words_drops_falsy (self : String) (ws : List PyVal) :
    (CleanSQL.join_words self ws =
      CleanSQL.join self (ws.filter PyVal.truthy)) ∧
    (∀ pre post : List PyVal,
      CleanSQL.join_words self
          (pre ++ [PyVal.pyNone, PyVal.plain ""] ++ post) =
        CleanSQL.join_words self (pre ++ post)) ∧
    ((∀ w ∈ ws, w.truthy = true → w.isClean = true) →
      CleanSQL.join_words self ws =
        .ok (String.intercalate self
          ((ws.filter PyVal.truthy).map PyVal.toStr))) ∧
    ((∀ w ∈ ws, w.truthy = true → w.isClean = true) →
      construct_statement ws =
        .ok (String.intercalate " "
          ((ws.filter PyVal.truthy).map PyVal.toStr) ++ ";")) := by
  have hfilter : ∀ l : List PyVal, (∀ w ∈ l, w.truthy = true → w.isClean = true) →
      (l.filter PyVal.truthy).any (fun v => !v.isClean) = false := by
    intro l hl
    simp only [List.any_eq_false]
    intro v hv
    have hm := List.mem_filter.mp hv
    simp [hl v hm.1 hm.2]
  refine ⟨rfl, ?_, ?_, ?_⟩
  · intro pre post
    unfold CleanSQL.join_words
    congr 1
    simp [List.filter_append, PyVal.truthy]
  · intro hws
    unfold CleanSQL.join_words
    simp [CleanSQL.join, hfilter ws hws]
  · intro hws
    unfold construct_statement
    have hj := hfilter ws hws
    simp +decide [CleanSQL.join_format, CleanSQL.join, hj, strFormat_semi]
    rfl

/-- Witness for C10: a `None` placeholder and an empty plain string are
dropped without raising, and the remaining words get single separators. -/
theorem join_words_drops_falsy_witness :
    CleanSQL.join_words " "
      [PyVal.clean "DELETE FROM", PyVal.pyNone, PyVal.plain "",
        PyVal.clean "tbl"] = .ok "DELETE FROM tbl" ∧
    construct_statement
      [PyVal.clean "DELETE FROM", PyVal.pyNone, PyVal.plain "",
        PyVal.clean "tbl"] = .ok "DELETE FROM tbl;" := by
  constructor
  · exact ((join_words_drops_falsy " "
      [PyVal.clean "DELETE FROM", PyVal.pyNone, PyVal.plain "",
        PyVal.clean "tbl"]).2.2.1 (by decide)).trans rfl
  · exact ((join_words_drops_falsy " "
      [PyVal.clean "DELETE FROM", PyVal.pyNone, PyVal.plain "",
        PyVal.clean "tbl"]).2.2.2 (by decide)).trans rfl

/-! ## C2: identifier quoting -/

/-- The identifier rendering as the spec words it: every occurrence of
the dialect quote character replaced by two copies of it, and the
result wrapped in one quote character on each side. -/
def specIdentifier (qc : Char) (value : String) : String :=
  String.mk (qc :: (value.data.flatMap
    (fun c => if c = qc then [qc, qc] else [c]) ++ [qc]))

theorem strReplace_single (qc : Char) (l : List Char) :
    strReplace l [qc] [qc, qc] =
      l.flatMap (fun c => if c = qc then [qc, qc] else [c]) := by
  induction l with
  | nil =>
    rw [strReplace]
    simp
  | cons c rest ih =>
    rw [strReplace]
    by_cases hc : c = qc
    · subst hc
      simp [List.isPrefixOf, ih]
    · have hc2 : ¬qc = c := fun h => hc h.symm
      simp [List.isPrefixOf, hc, hc2, ih]

/-- C2 (claim): `DbapiDriver.identifier` returns its argument with
every occurrence of the dialect quote character doubled and the
result wrapped in one quote character on each side — stated for any
single-character quote and instantiated at the SQLite double-quote. -/
theorem identifier_doubles_quotes :
    (∀ (qc : Char) (s : String),
      identifier (String.mk [qc]) s = specIdentifier qc s) ∧
    (∀ s : String, identifier "\"" s = specIdentifier '"' s) := by
  have core : ∀ (qc : Char) (s : String),
      identifier (String.mk [qc]) s = specIdentifier qc s := by
    intro qc s
    unfold identifier
    rw [strFormat_aba]
    apply String.ext
    show [qc] ++ strReplace s.data [qc] [qc, qc] ++ [qc] = _
    rw [strReplace_single]
    simp [specIdentifier]
  exact ⟨core, fun s => core '"' s⟩


/-! ## C3: NULL comparisons render as IS [NOT] NULL -/

theorem strData_append (a b : String) : (a ++ b).data = a.data ++ b.data := rfl

theorem expression_col (q t n : String) :
    expression q (Arg.col t n) =
      some (identifier q t ++ "." ++ identifier q n) := by
  rw [expression, strFormat_dot]

theorem expression_lit (q : String) (v : Lit) :
    expression q (Arg.lit v) = some (literal v) := by
  rw [expression]

theorem expression_filt (q op : String) (args : List Arg) (rs : List String)
    (h : expressionList q args = some rs) :
    expression q (Arg.filt op args) = applyOp op rs := by
  rw [expression, h]

theorem expressionList_pair (q : String) (a b : Arg) (ra rb : String)
    (ha : expression q a = some ra) (hb : expression q b = some rb) :
    expressionList q [a, b] = some [ra, rb] := by
  rw [expressionList, ha, expressionList, hb, expressionList]

/-- A rendered column always contains the separating dot, so it is
never the rendered NULL operand. -/
theorem dotted_ne_NULL (x y : String) : x ++ "." ++ y ≠ "NULL" := by
  intro h
  have hd : x.data ++ ['.'] ++ y.data = ['N', 'U', 'L', 'L'] := congrArg String.data h
  have hm : '.' ∈ (['N', 'U', 'L', 'L'] : List Char) := by
    rw [← hd]
    simp
  simp at hm

/-- C3 (claim): a Filter built as `column == None` renders as the
`IS NULL` form and `column != None` as the `IS NOT NULL` form (never
`=`/`!=`); for non-NULL rendered operands, `EQUAL` renders with `=`
and `NOTEQUAL` with `!=`. -/
theorem null_comparisons_render_is_null :
    (∀ q t n : String,
      expression q (Arg.filt "EQUAL" [Arg.col t n, Arg.lit Lit.null]) =
        some ("(" ++ (identifier q t ++ "." ++ identifier q n) ++ " IS NULL)")) ∧
    (∀ q t n : String,
      expression q (Arg.filt "NOTEQUAL" [Arg.col t n, Arg.lit Lit.null]) =
        some ("(" ++ (identifier q t ++ "." ++ identifier q n) ++
          " IS NOT NULL)")) ∧
    (∀ a b : String, a ≠ "NULL" → b ≠ "NULL" →
      applyOp "EQUAL" [a, b] = some ("(" ++ a ++ "=" ++ b ++ ")")) ∧
    (∀ a b : String, a ≠ "NULL" → b ≠ "NULL" →
      applyOp "NOTEQUAL" [a, b] = some ("(" ++ a ++ "!=" ++ b ++ ")")) := by
  refine ⟨?_, ?_, ?_, ?_⟩
  · intro q t n
    rw [expression_filt q "EQUAL" _ _
      (expressionList_pair q _ _ _ _ (expression_col q t n)
        (expression_lit q Lit.null))]
    simp +decide [applyOp, opEQUAL, literal, opTemplate, strFormat_is]
    apply String.ext
    simp [strData_append]
  · intro q t n
    rw [expression_filt q "NOTEQUAL" _ _
      (expressionList_pair q _ _ _ _ (expression_col q t n)
        (expression_lit q Lit.null))]
    simp +decide [applyOp, opNOTEQUAL, literal, opTemplate, strFormat_is_not]
    apply String.ext
    simp [strData_append]
  · intro a b ha hb
    simp +decide [applyOp, opEQUAL, ha, hb, opTemplate, strFormat_eq]
  · intro a b ha hb
    simp +decide [applyOp, opNOTEQUAL, ha, hb, opTemplate, strFormat_ne]

/-- Witness for C3: the doctest operands `1`, `2` render with `=`/`!=`. -/
theorem null_comparisons_witness :
    applyOp "EQUAL" ["1", "2"] = some "(1=2)" ∧
    applyOp "NOTEQUAL" ["1", "2"] = some "(1!=2)" := by
  constructor
  · exact (null_comparisons_render_is_null.2.2.1 "1" "2"
      (by decide) (by decide)).trans rfl
  · exact (null_comparisons_render_is_null.2.2.2 "1" "2"
      (by decide) (by decide)).trans rfl

/-! ## C4: the transaction scope commits even when the body raises -/

/-- C4 (code bug): the claim says an exception inside the outermost
transaction scope causes a rollback before the error propagates, and
the docstring of `execute` says the same — but the local `error` in
`DbapiDriver.transaction` is initialized to `None` and never assigned
(there is no `except` clause), so the `finally` block always takes the
commit branch.  Here a body that raises inside an outermost scope
(depth 0) ends with a `commit` on the log while the exception still
propagates. -/
theorem transaction_commits_despite_error :
    transactionRun ⟨0, []⟩ (fun st => (st, some PyExn.noSuchTableError)) =
      (⟨0, [TxAction.commit]⟩, some PyExn.noSuchTableError) := rfl

/-! ## C6: update refuses multi-table Selectables -/

/-- C6 (claim): `Selectable.update` raises `ValueError` before any
driver call whenever the number of tables in scope differs from one,
and proceeds to exactly one driver `update` call on the single table
otherwise. -/
theorem update_requires_single_table (tables : List String)
    (values : List (String × Lit)) :
    (tables.length ≠ 1 →
      selectableUpdate tables values = .error .valueError) ∧
    (tables.length = 1 → ∃ t, t ∈ tables ∧
      selectableUpdate tables values = .ok (.driverCall t values)) := by
  constructor
  · intro h
    simp [selectableUpdate, h]
  · intro h
    match tables, h with
    | [t], _ =>
      exact ⟨t, by simp, by simp [selectableUpdate]⟩

/-- Witness for C6: two tables raise `ValueError`, one table reaches
the driver. -/
theorem update_requires_single_table_witness :
    selectableUpdate ["a", "b"] [] = .error .valueError ∧
    selectableUpdate ["orders"] [("quantity", Lit.intL 5)] =
      .ok (.driverCall "orders" [("quantity", Lit.intL 5)]) := by
  constructor
  · exact (update_requires_single_table ["a", "b"] []).1 (by decide)
  · obtain ⟨t, ht, he⟩ := (update_requires_single_table ["orders"]
      [("quantity", Lit.intL 5)]).2 (by decide)
    have : t = "orders" := by simpa using ht
    rw [this] at he
    exact he

/-! ## C5: implicit `__id__` injection at save time -/

/-- C5 (counterexample): a table with one ordinary (non-primary-key)
column that happens to be named `__id__` has no declared primary key,
yet `save()` adds no extra column: `add_column("__id__", ...)` with
`replace=False` returns the existing column, which is then marked
implicit (and its `primarykey`/`autoincrement` flags stay false) — so
the saved table still has exactly one column, and the default
projection becomes empty. -/
theorem save_existing_id_column_counterexample :
    tableSave ⟨"t", [⟨"__id__", "Integer", false, false, false⟩],
        Option.none⟩ false =
      .ok (⟨"t", [⟨"__id__", "Integer", false, false, true⟩], some "__id__"⟩,
        ⟨"t", [⟨"__id__", "Integer", false, false, true⟩], false⟩) ∧
    (∀ t2 : PyTable,
      tableSave ⟨"t", [⟨"__id__", "Integer", false, false, false⟩],
          Option.none⟩ false =
        .ok (t2, ⟨"t", t2.columns, false⟩) → t2.columns.length ≠ 2) := by
  constructor
  · rfl
  · intro t2 h
    have h2 : t2 = ⟨"t", [⟨"__id__", "Integer", false, false, true⟩],
        some "__id__"⟩ := by
      have := h.symm.trans (rfl :
        tableSave ⟨"t", [⟨"__id__", "Integer", false, false, false⟩],
          Option.none⟩ false =
        .ok (⟨"t", [⟨"__id__", "Integer", false, false, true⟩], some "__id__"⟩,
          ⟨"t", [⟨"__id__", "Integer", false, false, true⟩], false⟩))
      exact (Prod.mk.injEq _ _ _ _ ▸ Except.ok.injEq _ _ ▸ this).1
    rw [h2]
    decide

/-- C5 (amended): for a table with at least one column, none of them
named `__id__`, and no declared primary key, `save()` appends the
implicit autoincrement primary-key column `__id__` to the column
collection before handing the columns to CREATE TABLE, and a
subsequent default `select()` projects exactly the non-implicit
columns, in insertion order, excluding `__id__`. -/
theorem save_injects_implicit_id (t : PyTable) (force : Bool)
    (hne : t.columns ≠ [])
    (hpk : t.primarykey = Option.none)
    (hid : ∀ c ∈ t.columns, c.name ≠ "__id__") :
    ∃ t2, tableSave t force = .ok (t2, ⟨t.name, t2.columns, force⟩) ∧
      t2.columns = t.columns ++ [⟨"__id__", "Integer", true, true, true⟩] ∧
      defaultSelectColumns t2 = t.columns.filter (fun c => !c.implicit) ∧
      (∀ c ∈ defaultSelectColumns t2, c.name ≠ "__id__") := by
  have hfind : t.columns.find? (fun c0 => c0.name == idColumnArg.name) =
      Option.none := by
    rw [List.find?_eq_none]
    intro c hc
    simpa [idColumnArg] using hid c hc
  have hmark : ∀ l : List Col, (∀ c ∈ l, c.name ≠ "__id__") →
      l.map (fun c => if c.name == "__id__" then
        { c with implicit := true } else c) = l := by
    intro l hl
    induction l with
    | nil => rfl
    | cons c rest ih =>
      simp only [List.map_cons]
      rw [if_neg (by simpa using hl c (by simp)), ih (fun c hc => hl c (by simp [hc]))]
  have hempty : t.columns.isEmpty = false := by
    simpa [List.isEmpty_iff] using hne
  refine ⟨{ t with
      columns := t.columns ++ [⟨"__id__", "Integer", true, true, true⟩],
      primarykey := some "__id__" }, ?_, rfl, ?_, ?_⟩
  · unfold tableSave
    rw [hempty]
    simp only [Bool.false_eq_true, if_false, hpk, Option.isNone_none, if_true]
    unfold addColumn
    rw [hfind]
    simp only [idColumnArg, List.map_append, hmark t.columns hid]
    rfl
  · unfold defaultSelectColumns
    simp [List.filter_append]
  · intro c hc
    have := List.mem_filter.mp hc
    rcases List.mem_append.mp this.1 with h | h
    · exact hid c h
    · exfalso
      have hcimp := this.2
      simp at h
      rw [h] at hcimp
      simp at hcimp

/-- Witness for C5 (amended) at the doctest table. -/
theorem save_injects_implicit_id_witness :
    ∃ t2, tableSave ⟨"orders", [⟨"amount", "Integer", false, false, false⟩],
        Option.none⟩ false = .ok (t2, ⟨"orders", t2.columns, false⟩) ∧
      t2.columns = [⟨"amount", "Integer", false, false, false⟩] ++
        [⟨"__id__", "Integer", true, true, true⟩] ∧
      defaultSelectColumns t2 =
        [(⟨"amount", "Integer", false, false, false⟩ : Col)].filter
          (fun c => !c.implicit) ∧
      (∀ c ∈ defaultSelectColumns t2, c.name ≠ "__id__") :=
  save_injects_implicit_id
    ⟨"orders", [⟨"amount", "Integer", false, false, false⟩], Option.none⟩
    false (by decide) (by decide) (by decide)

/-! ## C8: `Filter.tables` collects only direct Column arguments -/

/-- C8 (counterexample): `(a == 1) & (b == 2)` — an `AND` of two
comparison Filters over table `t` — has `tables = set()`, because
`Filter.__init__` only looks at direct arguments and neither argument
is a `Column`; yet `t` is referenced by Columns in the nested tree, so
`tables` is not the set of all referenced tables. -/
theorem filter_tables_not_recursive_counterexample :
    (mkFilter "AND"
      [Arg.filt "EQUAL" [Arg.col "t" "a", Arg.lit (Lit.intL 1)],
        Arg.filt "EQUAL" [Arg.col "t" "b", Arg.lit (Lit.intL 2)]]).tables = [] ∧
    "t" ∈ argListTables
      [Arg.filt "EQUAL" [Arg.col "t" "a", Arg.lit (Lit.intL 1)],
        Arg.filt "EQUAL" [Arg.col "t" "b", Arg.lit (Lit.intL 2)]] ∧
    "t" ∉ (mkFilter "AND"
      [Arg.filt "EQUAL" [Arg.col "t" "a", Arg.lit (Lit.intL 1)],
        Arg.filt "EQUAL" [Arg.col "t" "b", Arg.lit (Lit.intL 2)]]).tables := by
  refine ⟨rfl, by decide, by decide⟩

/-- C8 (amended): the `tables` attribute of a Filter is the set of tables
of its *direct* `Column` arguments (tables referenced only inside
nested Filter arguments are not included); when every argument is a
Column or a literal — as in every comparison/arithmetic node built
directly from columns and values — this coincides with the set of all
tables referenced in the expression.  Every composition operator
rebuilds the attribute from its own direct arguments by the same rule. -/
theorem filter_tables_direct_args (op : String) (args : List Arg) :
    ((mkFilter op args).tables = filterArgTables args) ∧
    (∀ x, x ∈ (mkFilter op args).tables ↔
      x ∈ args.filterMap (fun a => match a with
        | Arg.col t _ => some t
        | _ => Option.none)) ∧
    ((∀ a ∈ args, a.isFilt = false) →
      ∀ x, x ∈ (mkFilter op args).tables ↔ x ∈ argListTables args) := by
  have hflat : ∀ l : List Arg, (∀ a ∈ l, a.isFilt = false) →
      l.filterMap (fun a => match a with
        | Arg.col t _ => some t
        | _ => Option.none) = argListTables l := by
    intro l hl
    induction l with
    | nil => rfl
    | cons a rest ih =>
      have hrest := ih (fun a ha => hl a (by simp [ha]))
      cases a with
      | col t n => simp [argListTables, argTables, hrest]
      | lit v => simp [argListTables, argTables, hrest]
      | filt o as =>
        exact absurd (hl (Arg.filt o as) (by simp)) (by simp [Arg.isFilt])
  refine ⟨rfl, ?_, ?_⟩
  · intro x
    exact List.mem_dedup
  · intro h x
    show x ∈ (args.filterMap _).dedup ↔ _
    rw [List.mem_dedup, hflat args h]

/-- Witness for C8 (amended) at a depth-one comparison filter. -/
theorem filter_tables_direct_args_witness :
    "orders" ∈ (mkFilter "EQUAL"
      [Arg.col "orders" "amount", Arg.lit (Lit.intL 100)]).tables :=
  ((filter_tables_direct_args "EQUAL"
    [Arg.col "orders" "amount", Arg.lit (Lit.intL 100)]).2.2
      (by decide) "orders").mpr (by decide)

/-! ## C9: duplicate `add_table` replaces instead of raising -/

theorem lookup_dictSet {α : Type} (items : List (String × α)) (key : String)
    (v : α) : (dictSet items key v).lookup key = some v := by
  induction items with
  | nil => simp [dictSet, List.lookup]
  | cons kv rest ih =>
    obtain ⟨k, w⟩ := kv
    by_cases hk : k = key
    · subst hk
      simp [dictSet, List.lookup]
    · have hbeq : (key == k) = false := by
        simp only [beq_eq_false_iff_ne, ne_eq]
        exact fun h => hk h.symm
      simp only [dictSet, if_neg hk, List.lookup, hbeq]
      exact ih

/-- C9 (counterexample): with a table named `t` (carrying a column)
already added, a second `add_table('t')` returns normally — no
`TableAlreadyExists` — and the collection now holds the fresh empty
table in place of the first one. -/
theorem add_table_duplicate_counterexample :
    dbAddTable
        [("t", ⟨"t", [⟨"a", "Integer", false, false, false⟩], Option.none⟩)]
        "t" Option.none =
      .ok ([("t", ⟨"t", [], Option.none⟩)], ⟨"t", [], Option.none⟩) ∧
    (⟨"t", [], Option.none⟩ : PyTable) ≠
      ⟨"t", [⟨"a", "Integer", false, false, false⟩], Option.none⟩ := by
  exact ⟨rfl, by decide⟩

/-- C9 (amended): `DB.add_table` never raises and never contacts the
driver: it stores a fresh `Table` under the given name — replacing any
previously stored table of that name (`Collection.add` defaults to
`replace=True`) — and returns it; afterwards the name maps to the
fresh table.  (`TableAlreadyExists` only arises later, from the driver,
when `save()` issues CREATE TABLE for an existing table.) -/
theorem add_table_replaces (tables : List (String × PyTable)) (name : String)
    (pk : Option String) :
    dbAddTable tables name pk =
      .ok (dictSet tables name (mkTable name pk), mkTable name pk) ∧
    (dictSet tables name (mkTable name pk)).lookup name =
      some (mkTable name pk) := by
  exact ⟨rfl, lookup_dictSet tables name (mkTable name pk)⟩

/-! ## C7: serialize/deserialize round trips -/

theorem charToDigit_ofNat (d : Nat) (h : d < 10) :
    charToDigit? (Char.ofNat (48 + d)) = some d := by
  interval_cases d <;> decide

theorem readFixed_printFixed (w : Nat) : ∀ (n acc : Nat) (rest : List Char),
    n < 10 ^ w →
    readFixed w acc (printFixed w n ++ rest) = some (acc * 10 ^ w + n, rest) := by
  induction w with
  | zero =>
    intro n acc rest h
    have hn : n = 0 := by omega
    subst hn
    simp [printFixed, readFixed]
  | succ w ih =>
    intro n acc rest h
    have hp : 0 < 10 ^ w := pow_pos (by norm_num) w
    have hdiv : n / 10 ^ w < 10 := by
      rw [Nat.div_lt_iff_lt_mul hp, mul_comm]
      calc n < 10 ^ (w + 1) := h
        _ = 10 ^ w * 10 := pow_succ 10 w
    simp only [printFixed, List.cons_append, readFixed,
      charToDigit_ofNat _ hdiv]
    simp only [List.append_eq]
    rw [ih (n % 10 ^ w) (10 * acc + n / 10 ^ w) rest (Nat.mod_lt _ hp)]
    have e : 10 ^ w * (n / 10 ^ w) + n % 10 ^ w = n := Nat.div_add_mod n (10 ^ w)
    have harith : (10 * acc + n / 10 ^ w) * 10 ^ w + n % 10 ^ w =
        acc * 10 ^ (w + 1) + n := by
      have hps : (10 : ℕ) ^ (w + 1) = 10 ^ w * 10 := pow_succ 10 w
      have e1 : (10 * acc + n / 10 ^ w) * 10 ^ w =
          10 * (acc * 10 ^ w) + n / 10 ^ w * 10 ^ w := by ring
      have e2 : acc * (10 ^ w * 10) = 10 * (acc * 10 ^ w) := by ring
      have e3 : 10 ^ w * (n / 10 ^ w) = n / 10 ^ w * 10 ^ w := by ring
      rw [hps]
      omega
    rw [harith]

theorem readFracAux_printFixed (w : Nat) : ∀ (n acc cnt : Nat),
    n < 10 ^ w →
    readFracAux w acc cnt (printFixed w n) = (acc * 10 ^ w + n, cnt + w, []) := by
  induction w with
  | zero =>
    intro n acc cnt h
    have hn : n = 0 := by omega
    subst hn
    simp [printFixed, readFracAux]
  | succ w ih =>
    intro n acc cnt h
    have hp : 0 < 10 ^ w := pow_pos (by norm_num) w
    have hdiv : n / 10 ^ w < 10 := by
      rw [Nat.div_lt_iff_lt_mul hp, mul_comm]
      calc n < 10 ^ (w + 1) := h
        _ = 10 ^ w * 10 := pow_succ 10 w
    simp only [printFixed, readFracAux, charToDigit_ofNat _ hdiv]
    rw [ih (n % 10 ^ w) (10 * acc + n / 10 ^ w) (cnt + 1) (Nat.mod_lt _ hp)]
    have e : 10 ^ w * (n / 10 ^ w) + n % 10 ^ w = n := Nat.div_add_mod n (10 ^ w)
    have harith : (10 * acc + n / 10 ^ w) * 10 ^ w + n % 10 ^ w =
        acc * 10 ^ (w + 1) + n := by
      have hps : (10 : ℕ) ^ (w + 1) = 10 ^ w * 10 := pow_succ 10 w
      have e1 : (10 * acc + n / 10 ^ w) * 10 ^ w =
          10 * (acc * 10 ^ w) + n / 10 ^ w * 10 ^ w := by ring
      have e2 : acc * (10 ^ w * 10) = 10 * (acc * 10 ^ w) := by ring
      have e3 : 10 ^ w * (n / 10 ^ w) = n / 10 ^ w * 10 ^ w := by ring
      rw [hps]
      omega
    rw [harith]
    have : cnt + 1 + w = cnt + (w + 1) := by omega
    rw [this]

theorem readFrac_printFixed (f : Nat) (h : f < 10 ^ 6) :
    readFrac (printFixed 6 f) = some (f, []) := by
  unfold readFrac
  rw [readFracAux_printFixed 6 f 0 0 h]
  norm_num

theorem daysInMonth_le_31 (y m : Nat) : daysInMonth y m ≤ 31 := by
  unfold daysInMonth
  split
  · split <;> norm_num
  · split <;> norm_num

theorem readFixed_printFixed_nil (w n acc : Nat) (h : n < 10 ^ w) :
    readFixed w acc (printFixed w n) = some (acc * 10 ^ w + n, []) := by
  have := readFixed_printFixed w n acc [] h
  simpa using this

theorem readFixed_printFixed2 (w n acc : Nat) {rest : List Char}
    (h : n < 10 ^ w) :
    readFixed w acc (printFixed w n ++ rest) = some (acc * 10 ^ w + n, rest) :=
  readFixed_printFixed w n acc rest h

theorem deserializeDate_serializeDate (d : PyDate) (h : d.valid) :
    deserializeDate (serializeDate d) = some d := by
  obtain ⟨y, m, dd⟩ := d
  obtain ⟨h1, h2, h3, h4, h5, h6⟩ := h
  have hy : y < 10 ^ 4 := by norm_num at *; omega
  have hm : m < 10 ^ 2 := by norm_num at *; omega
  have hdd : dd < 10 ^ 2 := by
    have := daysInMonth_le_31 y m
    norm_num at *
    omega
  simp only [deserializeDate, serializeDate]
  rw [readFixed_printFixed2 4 y 0 hy]
  simp only [Option.bind_eq_bind, Option.some_bind, Nat.zero_mul, Nat.zero_add,
    expectChar, if_pos]
  rw [readFixed_printFixed2 2 m 0 hm]
  simp only [Option.some_bind, Nat.zero_mul, Nat.zero_add, if_pos]
  rw [readFixed_printFixed_nil 2 dd 0 hdd]
  simp only [Option.some_bind, Nat.zero_mul, Nat.zero_add, mkDate]
  simp only [if_true]
  rw [if_pos ?hc]
  case hc =>
    exact ⟨by simpa using h1, by simpa using h2, by simpa using h3,
      by simpa using h4, by simpa using h5, by simpa using h6⟩

theorem deserializeDateTime_serializeDateTime (t : PyDateTime) (h : t.valid)
    (hf : t.microsecond ≠ 0) :
    deserializeDateTime (serializeDateTime t) = some t := by
  obtain ⟨y, mo, dd, hh, mi, ss, f⟩ := t
  obtain ⟨⟨h1, h2, h3, h4, h5, h6⟩, h7, h8, h9, h10⟩ := h
  have hf2 : ¬(f = 0) := by simpa using hf
  have hy : y < 10 ^ 4 := by norm_num at *; omega
  have hmo : mo < 10 ^ 2 := by norm_num at *; omega
  have hdd : dd < 10 ^ 2 := by
    have := daysInMonth_le_31 y mo
    norm_num at *
    omega
  have hhh : hh < 10 ^ 2 := by norm_num at *; omega
  have hmi : mi < 10 ^ 2 := by norm_num at *; omega
  have hss : ss < 10 ^ 2 := by norm_num at *; omega
  have hff : f < 10 ^ 6 := by norm_num at *; omega
  simp only [deserializeDateTime, serializeDateTime]
  rw [if_neg hf2]
  rw [readFixed_printFixed2 4 y 0 hy]
  simp only [Option.bind_eq_bind, Option.some_bind, Nat.zero_mul, Nat.zero_add,
    expectChar, if_pos]
  rw [readFixed_printFixed2 2 mo 0 hmo]
  simp only [Option.some_bind, Nat.zero_mul, Nat.zero_add, if_pos]
  rw [readFixed_printFixed2 2 dd 0 hdd]
  simp only [Option.some_bind, Nat.zero_mul, Nat.zero_add, if_pos]
  rw [readFixed_printFixed2 2 hh 0 hhh]
  simp only [Option.some_bind, Nat.zero_mul, Nat.zero_add, if_pos]
  rw [readFixed_printFixed2 2 mi 0 hmi]
  simp only [Option.some_bind, Nat.zero_mul, Nat.zero_add, if_pos]
  rw [readFixed_printFixed2 2 ss 0 hss]
  simp only [Option.some_bind, Nat.zero_mul, Nat.zero_add, if_pos]
  rw [readFrac_printFixed f hff]
  simp only [Option.some_bind, if_true, mkDateTime]
  rw [if_pos ?hc]
  case hc =>
    exact ⟨⟨by simpa using h1, by simpa using h2, by simpa using h3,
      by simpa using h4, by simpa using h5, by simpa using h6⟩,
      by simpa using h7, by simpa using h8, by simpa using h9,
      by simpa using h10⟩

/-- C7 (counterexample): the perfectly valid datetime value
2000-01-01T00:00:00 (microsecond zero) is accepted by
`DateTime.serialize` — `isoformat()` omits the `.%f` part — but
`DateTime.deserialize` then raises `ValueError`, because its fixed
parse format `"%Y-%m-%dT%H:%M:%S.%f"` requires the fraction.  So
deserialize∘serialize is not the identity on all accepted values. -/
theorem datetime_midnight_roundtrip_fails :
    (⟨2000, 1, 1, 0, 0, 0, 0⟩ : PyDateTime).valid ∧
    dt.DateTime.serialize ⟨2000, 1, 1, 0, 0, 0, 0⟩ = "2000-01-01T00:00:00" ∧
    dt.DateTime.deserialize
      (dt.DateTime.serialize ⟨2000, 1, 1, 0, 0, 0, 0⟩) = Option.none := by
  refine ⟨by decide, by decide, by decide⟩

/-- C7 (amended): `deserialize (serialize v) = v` for every value of
the domain of every datatype — identity for `DataType`/`Float`/`Blob`,
native casts for `Text`/`Integer`, and the ISO string round trip for
`Date` on all valid dates; for `DateTime` it holds exactly on the
values with nonzero microsecond (`isoformat` omits the fraction at
microsecond 0, which the fixed parse format requires). -/
theorem datatype_roundtrip :
    (∀ v : PyVal, dt.DataType.deserialize (dt.DataType.serialize v) = v) ∧
    (∀ s : String, dt.Text.deserialize (dt.Text.serialize s) = s) ∧
    (∀ n : Int, dt.Integer.deserialize (dt.Integer.serialize n) = n) ∧
    (∀ v : PyVal, dt.Float.deserialize (dt.Float.serialize v) = v) ∧
    (∀ v : PyVal, dt.Blob.deserialize (dt.Blob.serialize v) = v) ∧
    (∀ d : PyDate, d.valid →
      dt.Date.deserialize (dt.Date.serialize d) = some d) ∧
    (∀ t : PyDateTime, t.valid → t.microsecond ≠ 0 →
      dt.DateTime.deserialize (dt.DateTime.serialize t) = some t) := by
  refine ⟨fun v => rfl, fun s => rfl, fun n => rfl, fun v => rfl, fun v => rfl,
    ?_, ?_⟩
  · intro d h
    exact deserializeDate_serializeDate d h
  · intro t h hf
    exact deserializeDateTime_serializeDateTime t h hf

/-- Witness for C7 (amended) at the boundary date `date(2000, 1, 1)`
and a microsecond-carrying datetime. -/
theorem datatype_roundtrip_witness :
    dt.Date.deserialize (dt.Date.serialize ⟨2000, 1, 1⟩) =
      some ⟨2000, 1, 1⟩ ∧
    dt.DateTime.deserialize
        (dt.DateTime.serialize ⟨1999, 12, 31, 23, 59, 59, 123456⟩) =
      some ⟨1999, 12, 31, 23, 59, 59, 123456⟩ := by
  constructor
  · exact datatype_roundtrip.2.2.2.2.2.1 ⟨2000, 1, 1⟩ (by decide)
  · exact datatype_roundtrip.2.2.2.2.2.2 ⟨1999, 12, 31, 23, 59, 59, 123456⟩
      (by decide) (by decide)
